import Mathlib

/-!
# Verification of pocketpaw core subsystems

A shallow embedding, in Lean 4, of the parts of the `pocketpaw` repository
that the specification claims talk about:

* `src/pocketpaw/mission_control/executor.py` — the Mission-Control task
  executor (`MCTaskExecutor`): UUID validation, the concurrency cap,
  background dispatch, the stream-drain loop, the cleanup/finalization
  phase and error sanitization.
* `src/pocketpaw/bus/media.py` — the media filename sanitizer.
* `src/pocketpaw/bus/adapters/whatsapp_adapter.py` — the outbound
  streaming buffer of `WhatsAppAdapter.send`.
* `src/pocketclaw/deep_work/api.py` — the `GET /projects/{id}/plan`
  endpoint body.

Python `dict`s keyed by strings are embedded as `Finset String` (key sets)
or association lists where the values matter; Python strings are Lean
`String`s manipulated through their `List Char` data; the two regular
expressions of `_sanitize_error` are embedded as direct scanning functions
whose behaviour coincides with CPython `re.sub` on the patterns in
question (see the doc comments on `pathSub` and `keySub`).
-/

namespace PocketPaw

/-! ## Python character-class helpers

`re` classes and `str.strip`, restricted to the ASCII range (all inputs
considered in the concrete theorems below are ASCII; the universal
theorems do not depend on the extent of the whitespace class). -/

/-- ASCII whitespace as matched by Python `\s` and stripped by
`str.strip()` / `str.rstrip()`: space, tab, newline, carriage return,
vertical tab, form feed. -/
def isPySpace (c : Char) : Bool :=
  c = ' ' || c = '\t' || c = '\n' || c = '\r' || c = '\x0b' || c = '\x0c'

/-- Python `str.rstrip()` (no argument): drop trailing whitespace. -/
def pyRstrip (l : List Char) : List Char :=
  (l.reverse.dropWhile isPySpace).reverse

/-- Python `str.strip()` (no argument): drop leading and trailing
whitespace.  `text.strip()` is truthy iff this is nonempty. -/
def pyStrip (l : List Char) : List Char :=
  (l.dropWhile isPySpace).reverse.dropWhile isPySpace |>.reverse

/-- ASCII hexadecimal digit, case-insensitive: the character class
`[0-9a-f]` of `UUID_PATTERN` compiled with `re.IGNORECASE`
(executor.py lines 39-42). -/
def isHexChar (c : Char) : Bool :=
  c.isDigit || ('a' ≤ c && c ≤ 'f') || ('A' ≤ c && c ≤ 'F')

/-- One position of the 36-character UUID body: `-` at offsets
8, 13, 18, 23, a hex digit everywhere else (executor.py lines 39-42). -/
def uuidCharOk (i : Nat) (c : Char) : Bool :=
  if i = 8 || i = 13 || i = 18 || i = 23 then c = '-' else isHexChar c

/-- The 36-character core of `UUID_PATTERN`:
`[0-9a-f]{8}-[0-9a-f]{4}-[0-9a-f]{4}-[0-9a-f]{4}-[0-9a-f]{12}`,
case-insensitive. -/
def uuidCore (cs : List Char) : Bool :=
  cs.length = 36 && (List.range 36).all fun i => uuidCharOk i (cs.getD i ' ')

/-- `MCTaskExecutor._is_valid_uuid` (executor.py lines 447-460).
`UUID_PATTERN.match` anchors at the start; the trailing `$` of the
pattern matches at the end of the string *or* just before one final
newline (CPython `$` semantics), so a UUID followed by a single `'\n'`
also validates.  The empty string is rejected by the `not value` guard. -/
def isValidUuid (s : String) : Bool :=
  uuidCore s.data ||
    (s.data.length = 37 && s.data.getLast? = some '\n' && uuidCore (s.data.take 36))

/-! ## Media filename sanitizer (`bus/media.py`) -/

/-- Python `\w` (Unicode-aware: `re.sub` in `_sanitize_filename` runs on
`str` without `re.ASCII`).  Embedded exactly on code points below U+0100:
ASCII letters, digits and `_`, plus the Latin-1 letters `ª µ º` and
`À`–`ÿ` except `×` and `÷`.  (Python's `\w` additionally matches word
characters above U+00FF; every theorem below that quantifies over all
inputs holds for any extension of this predicate, and every concrete
input used lies below U+0100.) -/
def isPyWordChar (c : Char) : Bool :=
  c.isAlphanum || c = '_' ||
    (0xC0 ≤ c.toNat && c.toNat ≤ 0xFF && c.toNat ≠ 0xD7 && c.toNat ≠ 0xF7) ||
    c.toNat = 0xAA || c.toNat = 0xB5 || c.toNat = 0xBA

/-- A character kept (not replaced by `_`) by
`re.sub(r"[^\w.\-]", "_", name)` (media.py line 35). -/
def keepInFilename (c : Char) : Bool :=
  isPyWordChar c || c = '.' || c = '-'

/-- `re.sub(r"_+", "_", ·)` (media.py line 37): collapse each maximal run
of underscores to a single underscore. -/
def collapseUnderscores : List Char → List Char
  | [] => []
  | [c] => [c]
  | c1 :: c2 :: rest =>
      if c1 = '_' && c2 = '_' then collapseUnderscores (c2 :: rest)
      else c1 :: collapseUnderscores (c2 :: rest)

/-- Python `str.strip("_")`: drop leading and trailing underscores. -/
def stripUnderscores (l : List Char) : List Char :=
  (l.dropWhile (· = '_')).reverse.dropWhile (· = '_') |>.reverse

/-- `_sanitize_filename` (media.py lines 32-38): replace every character
outside `[\w.\-]` by `_`, collapse `_+`, strip `_` from both ends, and
fall back to `"file"` when the result is empty (`sanitized or "file"`). -/
def sanitizeFilename (name : String) : String :=
  let replaced := name.data.map fun c => if keepInFilename c then c else '_'
  let collapsed := collapseUnderscores replaced
  let stripped := stripUnderscores collapsed
  if stripped.isEmpty then "file" else String.mk stripped

/-! ## Deep-Work plan endpoint (`pocketclaw/deep_work/api.py`) -/

/-- The project record as far as `get_plan` reads it: only
`prd_document_id` is consulted (api.py line 68).  The other fields of the
spec's Project entity do not influence the endpoint's key set. -/
structure Project where
  id : String
  prd_document_id : Option String
  deriving DecidableEq, Repr

/-- A stored document as far as `get_plan` uses it (`prd_doc.to_dict()`
is embedded as the document itself). -/
structure Document where
  id : String
  content : String
  deriving DecidableEq, Repr

/-- The JSON body built by `get_plan` (api.py lines 73-78): a dict
literal with exactly the keys `project`, `tasks`, `progress`, `prd`. -/
structure PlanBody where
  project : Project
  tasks : List String
  progress : String
  prd : Option Document
  deriving DecidableEq, Repr

/-- The key set of the dict literal returned by `get_plan`
(api.py lines 73-78), in source order. -/
def planBodyKeys : List String :=
  ["project", "tasks", "progress", "prd"]

/-- `get_plan` (api.py lines 50-78).  Store lookups are passed in as
their awaited results: `project?` is `manager.get_project(project_id)`,
`tasks` is `get_project_tasks`, `progress` is `get_project_progress`,
and `prdDoc?` is `manager.get_document(project.prd_document_id)` (only
consulted when `prd_document_id` is truthy).  An absent project raises
`HTTPException(404)`, embedded as `Except.error 404`. -/
def getPlan (project? : Option Project) (tasks : List String)
    (progress : String) (prdDoc? : Option Document) :
    Except Nat PlanBody :=
  match project? with
  | none => .error 404
  | some project =>
      let prd : Option Document :=
        match project.prd_document_id with
        | none => none
        | some docId => if docId = "" then none else prdDoc?
      .ok { project := project, tasks := tasks, progress := progress, prd := prd }

/-! ## Error sanitization (`executor.py` lines 462-498)

`_sanitize_error` applies two `re.sub` calls to the 200-character
truncation of the message.  Each is embedded as a left-to-right scanner
that agrees with CPython `re.sub` for its pattern:

* `r"/[^\s]+/[^\s]+"`: a match can only start at `'/'`; both greedy
  groups live inside the maximal non-whitespace run after that slash, and
  whenever a valid split exists the greedy second group extends the match
  to the end of that run, so the match is the slash plus the whole run,
  and it exists iff the run contains an inner `'/'` that is neither its
  first nor its last character.
* `r"(key|token|secret|password)[=:]\s*\S+"` (IGNORECASE), replacement
  `r"\1=[redacted]"`: the four alternatives start with pairwise distinct
  letters, so at most one can match at a given position; `\s*` is
  disjoint from `\S+`, so no backtracking across the two is possible.

Both scanners take a fuel argument; every recursion step consumes at
least one input character, so fuel equal to the input length never runs
out and the fuel-0 branch is unreachable. -/

/-- `MAX_ERROR_MESSAGE_LENGTH` (executor.py line 46). -/
def MAX_ERROR_MESSAGE_LENGTH : Nat := 200

/-- Scanner for `re.sub(r"/[^\s]+/[^\s]+", "[path]", s)`
(executor.py line 484).  At a `'/'`, `run` is the maximal non-whitespace
run after it; the pattern matches (consuming the slash and the whole
run) iff `run` has an interior `'/'` with at least one character on each
side. -/
def pathSubAux : Nat → List Char → List Char
  | 0, l => l
  | _ + 1, [] => []
  | fuel + 1, c :: rest =>
      if c = '/' then
        let run := rest.takeWhile fun ch => !(isPySpace ch)
        if ((run.drop 1).dropLast).contains '/' then
          '[' :: 'p' :: 'a' :: 't' :: 'h' :: ']' :: pathSubAux fuel (rest.drop run.length)
        else
          c :: pathSubAux fuel rest
      else
        c :: pathSubAux fuel rest

/-- `re.sub(r"/[^\s]+/[^\s]+", "[path]", ·)` on the character list. -/
def pathSub (l : List Char) : List Char := pathSubAux l.length l

/-- Case-insensitive literal match of a (lowercase) keyword against a
prefix of the input; returns the matched original-case text (the
capture group `\1`) and the remainder. -/
def tryKeyword : List Char → List Char → Option (List Char × List Char)
  | [], l => some ([], l)
  | _ :: _, [] => none
  | k :: ks, c :: cs =>
      if c.toLower = k then (tryKeyword ks cs).map fun p => (c :: p.1, p.2) else none

/-- Match `[=:]\s*\S+` at the head of the list and return the remainder.
`\s*` is greedy over whitespace, `\S+` then needs at least one
non-whitespace character and greedily takes the rest of the run. -/
def afterSep : List Char → Option (List Char)
  | [] => none
  | c :: cs =>
      if c = '=' || c = ':' then
        let rest := cs.dropWhile isPySpace
        if rest.isEmpty then none
        else some (rest.dropWhile fun ch => !(isPySpace ch))
      else none

/-- Try one alternative of the key/token/secret/password pattern at the
head of the list: keyword, then `[=:]\s*\S+`. -/
def tryKeyMatch (kw l : List Char) : Option (List Char × List Char) :=
  (tryKeyword kw l).bind fun p => (afterSep p.2).map fun rem => (p.1, rem)

/-- The full alternation `(key|token|secret|password)[=:]\s*\S+` at the
head of the list, alternatives tried in source order
(executor.py lines 487-492). -/
def matchKeyAt (l : List Char) : Option (List Char × List Char) :=
  (((tryKeyMatch "key".data l).orElse fun _ =>
      tryKeyMatch "token".data l).orElse fun _ =>
        tryKeyMatch "secret".data l).orElse fun _ =>
    tryKeyMatch "password".data l

/-- Scanner for
`re.sub(r"(key|token|secret|password)[=:]\s*\S+", r"\1=[redacted]", s, flags=IGNORECASE)`
(executor.py lines 487-492).  On a match the replacement is the matched
group-1 text followed by the literal `=[redacted]`. -/
def keySubAux : Nat → List Char → List Char
  | 0, l => l
  | _ + 1, [] => []
  | fuel + 1, c :: rest =>
      match matchKeyAt (c :: rest) with
      | some (m, rem) =>
          m ++ '=' :: '[' :: 'r' :: 'e' :: 'd' :: 'a' :: 'c' :: 't' :: 'e' :: 'd' :: ']' ::
            keySubAux fuel rem
      | none => c :: keySubAux fuel rest

/-- `re.sub(r"(key|token|secret|password)[=:]\s*\S+", r"\1=[redacted]", ·)`
on the character list. -/
def keySub (l : List Char) : List Char := keySubAux l.length l

/-- `MCTaskExecutor._sanitize_error` (executor.py lines 462-498).  The
Python parameter is `error: str` but the guard `if not error` also
covers `None`, so the argument is embedded as `Option String`:
`none` and `some ""` both yield `"An error occurred"`.  Otherwise the
message is truncated to 200 characters, the two substitutions run, and
when the *original* message exceeded 200 characters the result is
right-stripped and `"..."` is appended. -/
def sanitizeError (error : Option String) : String :=
  match error with
  | none => "An error occurred"
  | some err =>
      if err.data.isEmpty then "An error occurred"
      else
        let truncated := err.data.take MAX_ERROR_MESSAGE_LENGTH
        let substituted := keySub (pathSub truncated)
        if MAX_ERROR_MESSAGE_LENGTH < err.data.length then
          String.mk (pyRstrip substituted ++ '.' :: '.' :: '.' :: [])
        else String.mk substituted

/-- Executable substring test: `needle` occurs contiguously in the
haystack (Python `in` on `str`). -/
def hasSub (needle : List Char) : List Char → Bool
  | [] => needle.isEmpty
  | c :: rest => needle.isPrefixOf (c :: rest) || hasSub needle rest

/-! ## Mission-Control task executor (`executor.py`)

The executor's mutable maps are embedded by their key sets
(`Finset String`): the handles, routers and flag values they store are
opaque to every claim.  Cooperative concurrency means each mutation site
in the source runs atomically between `await` points; the step relation
`ExecStep` below has one constructor per mutation site. -/

/-- `MAX_CONCURRENT_TASKS` (executor.py line 45). -/
def MAX_CONCURRENT_TASKS : Nat := 5

/-- Task status values.  Modelled from the spec (§3 data model):
`models.py` is not among the provided sources; only the constructors
the executor writes are listed plus the remaining spec values. -/
inductive TaskStatus where
  | inbox | assigned | in_progress | review | done | skipped | blocked
  deriving DecidableEq, Repr

/-- Agent status values.  Modelled from the spec (§3 data model). -/
inductive AgentStatus where
  | idle | active | busy | offline
  deriving DecidableEq, Repr

/-- Activity types the executor logs (`ActivityType` constructors used in
executor.py; modelled from the spec since `models.py` is not among the
provided sources). -/
inductive ActivityType where
  | task_updated | task_completed | document_created
  deriving DecidableEq, Repr

/-- The task record as far as `execute_task` reads it after lookup: only
the title flows into the observable effects modelled here. -/
structure MCTask where
  title : String
  deriving DecidableEq, Repr

/-- The agent record as far as `execute_task` reads it after lookup. -/
structure MCAgent where
  name : String
  backend : String := "claude_agent_sdk"
  deriving DecidableEq, Repr

/-- The executor's mutable state (`MCTaskExecutor.__init__`,
executor.py lines 75-84), each dict/set restricted to its key set:
`_running_tasks`, `_agent_routers`, `_stop_flags`,
`_background_launched`. -/
structure ExecState where
  running : Finset String
  routers : Finset String
  stopFlags : Finset String
  backgroundLaunched : Finset String
  deriving DecidableEq

/-- The executor right after `__init__`: every map empty. -/
def initState : ExecState := ⟨∅, ∅, ∅, ∅⟩

/-- `execute_task_background` (executor.py lines 349-391).  The three
statements lines 373-390 run without an intervening `await`, so the
check-and-register is one atomic step: reject at capacity, reject a
duplicate, otherwise add to `_background_launched` and register the
handle in `_running_tasks`, returning `True`. -/
def executeTaskBackground (s : ExecState) (tid : String) : Bool × ExecState :=
  if MAX_CONCURRENT_TASKS ≤ s.running.card then (false, s)
  else if tid ∈ s.running then (false, s)
  else
    (true, { s with backgroundLaunched := insert tid s.backgroundLaunched,
                    running := insert tid s.running })

/-- The state effect of `stop_task` itself (executor.py lines 393-426):
not-running returns `False`; otherwise the stop flag for the task is set
(line 406).  The cancelled child's own cleanup is a separate step. -/
def stopTask (s : ExecState) (tid : String) : Bool × ExecState :=
  if tid ∉ s.running then (false, s)
  else (true, { s with stopFlags := insert tid s.stopFlags })

/-- One chunk yielded by `router.run(prompt)` (the `AgentRouter` backend
is an external collaborator; chunks are dicts with `type`, `content` and,
for tool use, `metadata.name`). -/
structure Chunk where
  type : String
  content : String
  metaName : String := "unknown"
  deriving DecidableEq, Repr

/-- Result of the stream-drain loop (executor.py lines 210-273). -/
structure DrainOut where
  outputs : List String
  events : List String
  finalStatus : String
  errorMessage : Option String
  deriving DecidableEq, Repr

/-- The `async for chunk in router.run(prompt)` loop
(executor.py lines 214-273).  `stopFlag i` is the value of
`_stop_flags[task_id]` observed at the top of iteration `i` (the flag is
mutated concurrently by `stop_task`).  `exc` is an exception the stream
raises after its last yielded chunk (`except Exception`, line 269);
its message is sanitized there.  An `error` chunk's message is captured
*unsanitized* (line 262).  A `message` chunk with empty content matches
no branch and is skipped, as is any unknown chunk type. -/
def drain (stopFlag : Nat → Bool) (exc : Option String) :
    Nat → List Chunk → DrainOut
  | _, [] =>
      match exc with
      | none => ⟨[], [], "completed", none⟩
      | some e => ⟨[], [], "error", some (sanitizeError (some e))⟩
  | i, c :: rest =>
      if stopFlag i then ⟨[], [], "stopped", none⟩
      else if c.type = "message" ∧ c.content ≠ "" then
        let r := drain stopFlag exc (i + 1) rest
        ⟨c.content :: r.outputs, "mc_task_output" :: r.events, r.finalStatus, r.errorMessage⟩
      else if c.type = "tool_use" then
        let r := drain stopFlag exc (i + 1) rest
        ⟨r.outputs, "mc_task_output" :: r.events, r.finalStatus, r.errorMessage⟩
      else if c.type = "tool_result" then
        let r := drain stopFlag exc (i + 1) rest
        ⟨r.outputs, "mc_task_output" :: r.events, r.finalStatus, r.errorMessage⟩
      else if c.type = "error" then ⟨[], [], "error", some c.content⟩
      else if c.type = "done" then ⟨[], [], "completed", none⟩
      else
        let r := drain stopFlag exc (i + 1) rest
        r

/-- `new_task_status` of the cleanup phase (executor.py line 282):
`DONE` iff the final status is `"completed"`, else `BLOCKED`. -/
def finalTaskStatus (finalStatus : String) : TaskStatus :=
  if finalStatus = "completed" then .done else .blocked

/-- Activities logged by the cleanup phase (executor.py lines 298-330):
`TASK_COMPLETED` (plus `DOCUMENT_CREATED` when a deliverable is saved)
on completion, `TASK_UPDATED` on error or stop. -/
def cleanupActivities (finalStatus : String) (saveDeliverable : Bool) :
    List ActivityType :=
  if finalStatus = "completed" then
    .task_completed :: (if saveDeliverable then [.document_created] else [])
  else if finalStatus = "error" then [.task_updated]
  else if finalStatus = "stopped" then [.task_updated]
  else []

/-- The result dict of `execute_task` (executor.py lines 342-347 and the
early returns). -/
structure ExecResult where
  status : String
  output : String
  error : Option String
  deriving DecidableEq, Repr

/-- Observable side effects of one `execute_task` call, in program
order within each list: store writes (`update_task_status`,
`set_agent_status`, `save_activity`, `save_document`), bus broadcasts
(event types), and scheduler-callback invocations. -/
structure Effects where
  taskStatusWrites : List (String × TaskStatus × Option String)
  agentStatusWrites : List (String × AgentStatus × Option String)
  activities : List ActivityType
  documents : List (String × String)
  busEvents : List String
  callbackCalls : List String
  deriving DecidableEq, Repr

/-- No observable effect (every early return of `execute_task`). -/
def noEffects : Effects := ⟨[], [], [], [], [], []⟩

/-- The body of `execute_task` once all the early guards have passed
(executor.py lines 150-347): consume the background mark, initialise the
stop flag, register the router, transition task and agent, broadcast
start events, drain the stream, then run the `finally` block — status
writes, completion broadcast, per-status activity, deliverable
persistence, cleanup pops and the scheduler callback. -/
def executeTaskRun (s : ExecState) (tid aid : String)
    (task : MCTask) (chunks : List Chunk) (exc : Option String)
    (stopFlag : Nat → Bool) (callbackSet : Bool) :
    ExecResult × Effects × ExecState :=
  let s1 : ExecState :=
    { s with backgroundLaunched := s.backgroundLaunched.erase tid,
             stopFlags := insert tid s.stopFlags,
             routers := insert tid s.routers }
  let d := drain stopFlag exc 0 chunks
  let fullOutput := String.join d.outputs
  let saveDeliverable :=
    d.finalStatus = "completed" ∧ d.outputs ≠ [] ∧ pyStrip fullOutput.data ≠ []
  let acts := cleanupActivities d.finalStatus saveDeliverable
  let effects : Effects :=
    { taskStatusWrites :=
        [(tid, .in_progress, some aid),
         (tid, finalTaskStatus d.finalStatus, some aid)],
      agentStatusWrites :=
        [(aid, .active, some tid), (aid, .idle, none)],
      activities := .task_updated :: acts,
      documents :=
        if saveDeliverable then [("Deliverable: " ++ task.title, fullOutput)]
        else [],
      busEvents :=
        "mc_task_started" :: "mc_activity_created" ::
          d.events ++ "mc_task_completed" ::
            acts.map fun _ => "mc_activity_created",
      callbackCalls := if callbackSet then [tid] else [] }
  let s2 : ExecState :=
    { s1 with running := s1.running.erase tid,
              routers := s1.routers.erase tid,
              stopFlags := s1.stopFlags.erase tid }
  (⟨d.finalStatus, fullOutput, d.errorMessage⟩, effects, s2)

/-- `execute_task` (executor.py lines 86-347).  Awaited collaborators
enter as parameters: `task?` and `agent?` are the results of
`manager.get_task` / `manager.get_agent`; `chunks`/`exc`/`stopFlag`
describe the router stream and the concurrently mutated stop flag (see
`drain`); `callbackSet` is whether `_on_task_done_callback` is set and
`callbackRaises` whether the callback raises (its exception is swallowed
by the `try/except` at lines 336-340, so the parameter influences
nothing observable).  Returns the result dict, the observable effects,
and the executor state after the call. -/
def executeTask (s : ExecState) (tid aid : String)
    (task? : Option MCTask) (agent? : Option MCAgent)
    (chunks : List Chunk) (exc : Option String) (stopFlag : Nat → Bool)
    (callbackSet : Bool) (_callbackRaises : Bool) :
    ExecResult × Effects × ExecState :=
  if ¬ isValidUuid tid then
    (⟨"error", "", some "Invalid task ID format"⟩, noEffects, s)
  else if ¬ isValidUuid aid then
    (⟨"error", "", some "Invalid agent ID format"⟩, noEffects, s)
  else if MAX_CONCURRENT_TASKS ≤ s.running.card then
    (⟨"error", "", some "Maximum concurrent tasks (5) reached."⟩, noEffects,
     { s with running := s.running.erase tid,
              backgroundLaunched := s.backgroundLaunched.erase tid })
  else
    match task? with
    | none => (⟨"error", "", some "Task not found"⟩, noEffects, s)
    | some task =>
        match agent? with
        | none => (⟨"error", "", some "Agent not found"⟩, noEffects, s)
        | some _agent =>
            if tid ∈ s.running ∧ tid ∉ s.backgroundLaunched then
              (⟨"error", "", some "Task is already running"⟩, noEffects, s)
            else
              executeTaskRun s tid aid task chunks exc stopFlag callbackSet

/-- One atomic mutation of the executor state; one constructor per
mutation site of `executor.py`, tagged with the source lines. -/
inductive ExecStep : ExecState → ExecState → Prop
  /-- `execute_task_background`, lines 373-390: check-and-register. -/
  | background (s : ExecState) (tid : String) :
      ExecStep s (executeTaskBackground s tid).2
  /-- `execute_task` capacity branch, lines 128-130: pop a leaked
  running entry and discard the background mark. -/
  | capacityPop (s : ExecState) (tid : String) :
      ExecStep s { s with running := s.running.erase tid,
                          backgroundLaunched := s.backgroundLaunched.erase tid }
  /-- `execute_task` line 150: `_background_launched.discard(task_id)`. -/
  | consumeBackground (s : ExecState) (tid : String) :
      ExecStep s { s with backgroundLaunched := s.backgroundLaunched.erase tid }
  /-- `execute_task` lines 159 and 180: stop-flag initialisation and
  router registration (`_running_tasks` untouched). -/
  | registerAux (s : ExecState) (tid : String) :
      ExecStep s { s with stopFlags := insert tid s.stopFlags,
                          routers := insert tid s.routers }
  /-- `execute_task` finally block, lines 277-279: pop router, running
  entry and stop flag. -/
  | cleanupPop (s : ExecState) (tid : String) :
      ExecStep s { s with running := s.running.erase tid,
                          routers := s.routers.erase tid,
                          stopFlags := s.stopFlags.erase tid }
  /-- `stop_task` line 406: set an existing task's stop flag. -/
  | setStopFlag (s : ExecState) (tid : String) :
      ExecStep s (stopTask s tid).2

/-- Executor states reachable from the freshly constructed executor by
any interleaving of the mutation sites above. -/
inductive Reachable : ExecState → Prop
  | init : Reachable initState
  | step {s s2 : ExecState} : Reachable s → ExecStep s s2 → Reachable s2

/-! ## WhatsApp adapter outbound buffering (`whatsapp_adapter.py`) -/

/-- An outbound bus message as far as `WhatsAppAdapter.send` reads it. -/
structure OutboundMessage where
  chat_id : String
  content : String
  is_stream_chunk : Bool
  is_stream_end : Bool
  deriving DecidableEq, Repr

/-- Python dict lookup `d.get(k)` on a string-keyed dict embedded as an
association list. -/
def dictGet (d : List (String × String)) (k : String) : Option String :=
  (d.find? fun p => p.1 = k).map Prod.snd

/-- Python dict assignment `d[k] = v`: overwrite the entry if the key is
present, append it otherwise. -/
def dictSet : List (String × String) → String → String → List (String × String)
  | [], k, v => [(k, v)]
  | (k1, v1) :: rest, k, v =>
      if k1 = k then (k1, v) :: rest else (k1, v1) :: dictSet rest k v

/-- Python `d.pop(k, default)`'s effect on the dict: the key is removed. -/
def dictPop (d : List (String × String)) (k : String) : List (String × String) :=
  d.filter fun p => p.1 ≠ k

/-- The adapter state `WhatsAppAdapter.send` manipulates: the
per-chat-id stream buffers (`self._buffers`, line 35) and the list of
messages actually posted to the Cloud API, in order (`_send_text`,
lines 230-246, recorded as `(to, converted text)`). -/
structure WAState where
  buffers : List (String × String)
  sent : List (String × String)
  deriving DecidableEq, Repr

/-- `WhatsAppAdapter.send` (whatsapp_adapter.py lines 198-228).
`httpReady` embeds `self._http is not None`; `convert` is
`convert_markdown(·, Channel.WHATSAPP)` from `bus/format.py`, which is
not among the provided sources and enters as an opaque parameter.
A stream chunk is appended to the chat's buffer and nothing is sent; a
stream end pops the buffer and sends its text iff `text.strip()` is
truthy; a plain message is sent iff its own content strips non-empty. -/
def waSend (httpReady : Bool) (convert : String → String)
    (s : WAState) (m : OutboundMessage) : WAState :=
  if ¬ httpReady then s
  else if m.is_stream_chunk then
    let acc := ((dictGet s.buffers m.chat_id).getD "") ++ m.content
    { s with buffers := dictSet s.buffers m.chat_id acc }
  else if m.is_stream_end then
    let text := (dictGet s.buffers m.chat_id).getD ""
    let buffers2 := dictPop s.buffers m.chat_id
    if pyStrip text.data ≠ [] then
      { buffers := buffers2, sent := s.sent ++ [(m.chat_id, convert text)] }
    else { s with buffers := buffers2 }
  else if pyStrip m.content.data ≠ [] then
    { s with sent := s.sent ++ [(m.chat_id, convert m.content)] }
  else s

/-! ## Concrete inputs used by witnesses and counterexamples -/

/-- A syntactically valid all-zero UUID (used by the repository's own
tests). -/
def uuidA : String := "00000000-0000-0000-0000-000000000000"

/-- A second syntactically valid UUID. -/
def uuidB : String := "11111111-1111-1111-1111-111111111111"

/-- Five back-to-back `execute_task_background` registrations starting
from the fresh executor; the last one registers `uuidA`.  Every
registration passes the pre-check (`card < 5` at each step), so all five
are tracked in `_running_tasks` before any of the spawned coroutines
runs — exactly the state produced by a burst of cascade dispatches. -/
def c1State : ExecState :=
  (executeTaskBackground
    (executeTaskBackground
      (executeTaskBackground
        (executeTaskBackground
          (executeTaskBackground initState "t1").2 "t2").2 "t3").2 "t4").2 uuidA).2

/-- 14 repetitions of `"key:a "` (84 characters): every repetition is a
match of the key/token/secret/password pattern whose replacement
`key=[redacted]` is 8 characters longer than the 6 characters matched. -/
def c6Long : String :=
  "key:a key:a key:a key:a key:a key:a key:a key:a key:a key:a key:a key:a key:a key:a "

/-- The character set the C7 claim asserts for sanitizer outputs:
ASCII alphanumerics plus `.`, `-`, `_`. -/
def asciiAllowed (c : Char) : Bool :=
  c.isAlphanum || c = '.' || c = '-' || c = '_'

/-! ## Helper lemmas -/

theorem hasSub_iff_occurs (needle l : List Char) :
    hasSub needle l = true ↔ needle <:+: l := by
  induction l with
  | nil =>
      simp only [hasSub, List.isEmpty_iff, List.infix_nil]
  | cons c rest ih =>
      simp only [hasSub, Bool.or_eq_true, List.isPrefixOf_iff_prefix, ih,
        List.infix_cons_iff]

theorem collapseUnderscores_head (a : Char) (l : List Char) :
    (collapseUnderscores (a :: l)).head? = some a := by
  induction l generalizing a with
  | nil => rfl
  | cons b rest ih =>
      rw [collapseUnderscores]
      split
      next h =>
        have hab : a = '_' ∧ b = '_' := by simpa using h
        rw [ih b, hab.1, hab.2]
      next h => rfl

theorem collapseUnderscores_subset (l : List Char) :
    ∀ c ∈ collapseUnderscores l, c ∈ l := by
  induction l with
  | nil => simp [collapseUnderscores]
  | cons a tail ih =>
      cases tail with
      | nil => simp [collapseUnderscores]
      | cons b rest =>
          rw [collapseUnderscores]
          split
          · intro c hc
            exact List.mem_cons_of_mem a (ih c hc)
          · intro c hc
            rcases List.mem_cons.mp hc with h | h
            · simp [h]
            · exact List.mem_cons_of_mem a (ih c h)

theorem collapseUnderscores_no_doubles (l : List Char) :
    ¬ (['_', '_'] <:+: collapseUnderscores l) := by
  induction l with
  | nil =>
      simp [collapseUnderscores]
  | cons a tail ih =>
      cases tail with
      | nil =>
          intro h
          have := h.sublist.length_le
          simp [collapseUnderscores] at this
      | cons b rest =>
          rw [collapseUnderscores]
          split
          next => exact ih
          next hcond =>
            intro h
            rcases List.infix_cons_iff.mp h with hp | hi
            · rcases List.cons_prefix_cons.mp hp with ⟨ha, hp2⟩
              have hhead := collapseUnderscores_head b rest
              cases hcp : collapseUnderscores (b :: rest) with
              | nil =>
                  rw [hcp] at hp2
                  have := hp2.length_le
                  simp at this
              | cons x xs =>
                  rw [hcp] at hp2 hhead
                  rcases List.cons_prefix_cons.mp hp2 with ⟨hx, _⟩
                  have hb : b = '_' := by
                    have : x = b := by simpa using hhead
                    rw [← this, ← hx]
                  exact hcond (by simp [← ha, hb])
            · exact ih hi

theorem stripUnderscores_within (l : List Char) : stripUnderscores l <:+: l := by
  have h1 : l.dropWhile (· = '_') <:+ l := List.dropWhile_suffix _
  have h2 : stripUnderscores l <+: l.dropWhile (· = '_') := by
    unfold stripUnderscores
    rw [← List.reverse_suffix]
    simpa using List.dropWhile_suffix (p := (· = '_')) (l := (l.dropWhile (· = '_')).reverse)
  exact h2.isInfix.trans h1.isInfix

theorem sanitizeFilename_cases (name : String) :
    sanitizeFilename name = "file" ∨
    (sanitizeFilename name).data =
      stripUnderscores (collapseUnderscores
        (name.data.map fun c => if keepInFilename c then c else '_')) := by
  unfold sanitizeFilename
  dsimp only
  split
  · exact Or.inl rfl
  · exact Or.inr rfl

theorem pyRstrip_length_le (l : List Char) : (pyRstrip l).length ≤ l.length := by
  unfold pyRstrip
  rw [List.length_reverse]
  calc (l.reverse.dropWhile isPySpace).length
      ≤ l.reverse.length := (List.dropWhile_suffix _).sublist.length_le
    _ = l.length := List.length_reverse l

theorem executeTask_normal (s : ExecState) (tid aid : String) (task : MCTask)
    (agent : MCAgent) (chunks : List Chunk) (exc : Option String)
    (stopFlag : Nat → Bool) (cbSet cbR : Bool)
    (hvt : isValidUuid tid = true) (hva : isValidUuid aid = true)
    (hcap : ¬ MAX_CONCURRENT_TASKS ≤ s.running.card)
    (hdup : ¬ (tid ∈ s.running ∧ tid ∉ s.backgroundLaunched)) :
    executeTask s tid aid (some task) (some agent) chunks exc stopFlag cbSet cbR =
      executeTaskRun s tid aid task chunks exc stopFlag cbSet := by
  simp [executeTask, hvt, hva, hcap, hdup]

theorem executeTaskRun_running (s : ExecState) (tid aid : String) (task : MCTask)
    (chunks : List Chunk) (exc : Option String) (stopFlag : Nat → Bool)
    (cbSet : Bool) :
    (executeTaskRun s tid aid task chunks exc stopFlag cbSet).2.2.running =
      s.running.erase tid := rfl

theorem executeTaskRun_status (s : ExecState) (tid aid : String) (task : MCTask)
    (chunks : List Chunk) (exc : Option String) (stopFlag : Nat → Bool)
    (cbSet : Bool) :
    (executeTaskRun s tid aid task chunks exc stopFlag cbSet).1.status =
      (drain stopFlag exc 0 chunks).finalStatus := rfl

theorem executeTaskRun_taskWrites (s : ExecState) (tid aid : String)
    (task : MCTask) (chunks : List Chunk) (exc : Option String)
    (stopFlag : Nat → Bool) (cbSet : Bool) :
    (executeTaskRun s tid aid task chunks exc stopFlag cbSet).2.1.taskStatusWrites =
      [(tid, .in_progress, some aid),
       (tid, finalTaskStatus (drain stopFlag exc 0 chunks).finalStatus, some aid)] := rfl

theorem executeTaskRun_agentWrites (s : ExecState) (tid aid : String)
    (task : MCTask) (chunks : List Chunk) (exc : Option String)
    (stopFlag : Nat → Bool) (cbSet : Bool) :
    (executeTaskRun s tid aid task chunks exc stopFlag cbSet).2.1.agentStatusWrites =
      [(aid, .active, some tid), (aid, .idle, none)] := rfl

theorem executeTaskRun_callbackCalls (s : ExecState) (tid aid : String)
    (task : MCTask) (chunks : List Chunk) (exc : Option String)
    (stopFlag : Nat → Bool) (cbSet : Bool) :
    (executeTaskRun s tid aid task chunks exc stopFlag cbSet).2.1.callbackCalls =
      if cbSet then [tid] else [] := rfl

theorem dictGet_dictSet (d : List (String × String)) (k v : String) :
    dictGet (dictSet d k v) k = some v := by
  induction d with
  | nil => simp [dictGet, dictSet]
  | cons p rest ih =>
      by_cases h : p.1 = k
      · simp [dictGet, dictSet, h]
      · simp only [dictSet, if_neg h]
        simp only [dictGet, List.find?] at ih ⊢
        simp [h, ih]

theorem dictGet_dictPop (d : List (String × String)) (k : String) :
    dictGet (dictPop d k) k = none := by
  induction d with
  | nil => rfl
  | cons p rest ih =>
      by_cases h : p.1 = k
      · simpa [dictPop, h] using ih
      · simp only [dictPop, List.filter] at ih ⊢
        simp only [dictGet, List.find?] at ih ⊢
        simp [h, ih]

theorem drain_status_cases (stopFlag : Nat → Bool) (exc : Option String)
    (i : Nat) (chunks : List Chunk) :
    (drain stopFlag exc i chunks).finalStatus = "completed" ∨
    (drain stopFlag exc i chunks).finalStatus = "stopped" ∨
    (drain stopFlag exc i chunks).finalStatus = "error" := by
  induction chunks generalizing i with
  | nil =>
      cases exc <;> simp [drain]
  | cons c rest ih =>
      rw [drain]
      split
      · simp
      · split
        · simpa using ih (i + 1)
        · split
          · simpa using ih (i + 1)
          · split
            · simpa using ih (i + 1)
            · split
              · simp
              · split
                · simp
                · simpa using ih (i + 1)

/-! ## Claim C6 — error scrubber -/

set_option maxRecDepth 10000 in
/-- C6 counterexample: the claim "for every input string the result has
length at most 203 characters" is false.  `c6Long` is 84 characters (so
it is not even truncated), yet `_sanitize_error` returns 210 characters:
each of its 14 six-character `key:a ` groups is rewritten to the
fifteen-character `key=[redacted] `. -/
theorem c6_length_counterexample :
    c6Long.data.length = 84 ∧ 203 < (sanitizeError (some c6Long)).data.length := by
  constructor
  · decide
  · decide

/-- C6 amended: `_sanitize_error("key=sk-abc")` contains `[redacted]`
and not `sk-abc`; empty or null input yields exactly
`"An error occurred"`; and the 203-character bound holds for every input
on which the two regex substitutions do not lengthen the truncated text
(the truncation itself only caps the text *before* substitution, so the
bound is not universal — see `c6_length_counterexample`). -/
theorem c6_amended (e : String)
    (h : (keySub (pathSub (e.data.take MAX_ERROR_MESSAGE_LENGTH))).length ≤
      MAX_ERROR_MESSAGE_LENGTH) :
    hasSub "[redacted]".data (sanitizeError (some "key=sk-abc")).data = true ∧
    hasSub "sk-abc".data (sanitizeError (some "key=sk-abc")).data = false ∧
    sanitizeError none = "An error occurred" ∧
    sanitizeError (some "") = "An error occurred" ∧
    (sanitizeError (some e)).data.length ≤ 203 := by
  refine ⟨by decide, by decide, by decide, by decide, ?_⟩
  by_cases h1 : e.data.isEmpty
  · simp [sanitizeError, h1]
  · by_cases h2 : MAX_ERROR_MESSAGE_LENGTH < e.data.length
    · have h3 := pyRstrip_length_le (keySub (pathSub (e.data.take MAX_ERROR_MESSAGE_LENGTH)))
      simp only [sanitizeError, h1, h2, Bool.false_eq_true, if_false, if_true,
        ite_true, ite_false, List.length_append, List.length_cons, List.length_nil]
      simp only [MAX_ERROR_MESSAGE_LENGTH] at h h3 ⊢
      omega
    · simp only [sanitizeError, h1, h2, Bool.false_eq_true, if_false, if_true,
        ite_true, ite_false]
      simp only [MAX_ERROR_MESSAGE_LENGTH] at h ⊢
      omega

/-- Witness for `c6_amended` at the concrete input `"key=sk-abc"`. -/
theorem c6_amended_witness :
    (keySub (pathSub ("key=sk-abc".data.take MAX_ERROR_MESSAGE_LENGTH))).length ≤
        MAX_ERROR_MESSAGE_LENGTH ∧
      (hasSub "[redacted]".data (sanitizeError (some "key=sk-abc")).data = true ∧
       hasSub "sk-abc".data (sanitizeError (some "key=sk-abc")).data = false ∧
       sanitizeError none = "An error occurred" ∧
       sanitizeError (some "") = "An error occurred" ∧
       (sanitizeError (some "key=sk-abc")).data.length ≤ 203) :=
  ⟨by decide, c6_amended "key=sk-abc" (by decide)⟩

/-! ## Claim C7 — media filename sanitizer -/

/-- C7 counterexample: the claim "the filename sanitizer returns a
string whose characters all lie in `{A-Z, a-z, 0-9, ., -, _}`" is false:
Python `\w` is Unicode-aware, so `é` is kept verbatim. -/
theorem c7_ascii_counterexample :
    (sanitizeFilename "é").data.all asciiAllowed = false ∧
    sanitizeFilename "é" = "é" := by
  constructor
  · decide
  · decide

/-- C7 amended: every character of a sanitized filename is a Python
word character (`\w`, Unicode-aware) or `.` or `-`; the result never
contains two adjacent underscores; the empty name becomes `"file"`;
and `sanitize("../../etc/passwd")` contains no `/`. -/
theorem c7_amended (name : String) :
    (sanitizeFilename name).data.all keepInFilename = true ∧
    hasSub ['_', '_'] (sanitizeFilename name).data = false ∧
    sanitizeFilename "" = "file" ∧
    (sanitizeFilename "../../etc/passwd").data.contains '/' = false := by
  refine ⟨?_, ?_, by decide, by decide⟩
  · rcases sanitizeFilename_cases name with h | h
    · rw [h]
      decide
    · rw [List.all_eq_true]
      intro c hc
      rw [h] at hc
      have h1 := (stripUnderscores_within _).subset hc
      have h2 := collapseUnderscores_subset _ c h1
      rcases List.mem_map.mp h2 with ⟨c0, _, hc0⟩
      by_cases hk : keepInFilename c0
      · rw [if_pos hk] at hc0
        rw [← hc0]
        exact hk
      · rw [if_neg hk] at hc0
        rw [← hc0]
        decide
  · rcases sanitizeFilename_cases name with h | h
    · rw [h]
      decide
    · rw [h, Bool.eq_false_iff]
      intro habs
      have hinf := (hasSub_iff_occurs _ _).mp habs
      exact collapseUnderscores_no_doubles _ (hinf.trans (stripUnderscores_within _))

/-! ## Claim C2 — concurrency cap invariant -/

/-- C2: `len(running) ≤ MAX_CONCURRENT_TASKS` holds in every reachable
executor state: `execute_task_background` registers a handle only after
checking `len < MAX_CONCURRENT_TASKS`, and every other mutation site
leaves `_running_tasks` unchanged or removes entries. -/
theorem c2_concurrency_cap (s : ExecState) (h : Reachable s) :
    s.running.card ≤ MAX_CONCURRENT_TASKS := by
  induction h with
  | init => simp [initState, MAX_CONCURRENT_TASKS]
  | @step s0 s2 _ hstep ih =>
      cases hstep with
      | background tid =>
          by_cases hc : MAX_CONCURRENT_TASKS ≤ s0.running.card
          · simp only [executeTaskBackground, if_pos hc]
            exact ih
          · by_cases hm : tid ∈ s0.running
            · simp only [executeTaskBackground, if_neg hc, if_pos hm]
              exact ih
            · simp only [executeTaskBackground, if_neg hc, if_neg hm]
              have := Finset.card_insert_le tid s0.running
              simp only [MAX_CONCURRENT_TASKS] at hc ⊢
              omega
      | capacityPop tid => exact le_trans Finset.card_erase_le ih
      | consumeBackground tid => exact ih
      | registerAux tid => exact ih
      | cleanupPop tid => exact le_trans Finset.card_erase_le ih
      | setStopFlag tid =>
          unfold stopTask
          split
          · exact ih
          · exact ih

/-- Witness for `c2_concurrency_cap` at the initial (reachable) state. -/
theorem c2_concurrency_cap_witness :
    initState.running.card ≤ MAX_CONCURRENT_TASKS :=
  c2_concurrency_cap initState Reachable.init

/-! ## Claim C1 — the capacity recheck ignores `background_launched` -/

/-- C1 (code bug): after five back-to-back background launches — each of
which passed `execute_task_background`'s pre-registration capacity check
and returned `True` — the spawned `execute_task(uuidA, ·)` finds
`len(_running_tasks) = 5 ≥ MAX_CONCURRENT_TASKS` and returns the
capacity error *even though* `uuidA ∈ _background_launched`: the
capacity recheck (executor.py lines 123-134) never consults
`_background_launched`, contrary to the claim and to the stated purpose
of the pre-registration check.  The state is reachable by the
executor's own operations. -/
theorem c1_capacity_recheck_ignores_background :
    Reachable c1State ∧
    uuidA ∈ c1State.backgroundLaunched ∧
    MAX_CONCURRENT_TASKS ≤ c1State.running.card ∧
    (executeTask c1State uuidA uuidB (some ⟨"Design the schema"⟩)
        (some ⟨"Coder", "claude_agent_sdk"⟩) [] none (fun _ => false) true false).1 =
      ⟨"error", "", some "Maximum concurrent tasks (5) reached."⟩ ∧
    (executeTask c1State uuidA uuidB (some ⟨"Design the schema"⟩)
        (some ⟨"Coder", "claude_agent_sdk"⟩) [] none (fun _ => false) true false).2.1 =
      noEffects := by
  refine ⟨?_, by decide, by decide, by decide, by decide⟩
  exact .step (.step (.step (.step (.step .init
    (.background initState "t1"))
    (.background _ "t2"))
    (.background _ "t3"))
    (.background _ "t4"))
    (.background _ uuidA)

/-! ## Claim C3 — duplicate background dispatch -/

/-- C3: from any state under capacity with `id` untracked, the first
`execute_task_background(id, ·)` returns `True` and registers exactly
one entry; an immediately following second call returns `False` and
changes nothing; and once the spawned `execute_task` body finishes (the
task and agent exist and the IDs validate), `id` is no longer in
`_running_tasks`. -/
theorem c3_duplicate_guard (s : ExecState) (tid aid : String)
    (hcap : s.running.card < MAX_CONCURRENT_TASKS) (hmem : tid ∉ s.running)
    (hvt : isValidUuid tid = true) (hva : isValidUuid aid = true)
    (task : MCTask) (agent : MCAgent) (chunks : List Chunk) (exc : Option String)
    (stopFlag : Nat → Bool) (cbSet cbRaises : Bool) :
    (executeTaskBackground s tid).1 = true ∧
    tid ∈ (executeTaskBackground s tid).2.running ∧
    (executeTaskBackground s tid).2.running.card = s.running.card + 1 ∧
    (executeTaskBackground (executeTaskBackground s tid).2 tid).1 = false ∧
    (executeTaskBackground (executeTaskBackground s tid).2 tid).2 =
      (executeTaskBackground s tid).2 ∧
    tid ∉ (executeTask (executeTaskBackground s tid).2 tid aid (some task)
        (some agent) chunks exc stopFlag cbSet cbRaises).2.2.running := by
  have hcap2 : ¬ MAX_CONCURRENT_TASKS ≤ s.running.card := by omega
  have hfirst : executeTaskBackground s tid =
      (true, { s with backgroundLaunched := insert tid s.backgroundLaunched,
                      running := insert tid s.running }) := by
    simp only [executeTaskBackground, if_neg hcap2, if_neg hmem]
  rw [hfirst]
  refine ⟨rfl, Finset.mem_insert_self tid _, Finset.card_insert_of_not_mem hmem, ?_, ?_, ?_⟩
  · unfold executeTaskBackground
    split
    · rfl
    · split
      · rfl
      · next _ hm => exact absurd (Finset.mem_insert_self tid _) hm
  · unfold executeTaskBackground
    split
    · rfl
    · split
      · rfl
      · next _ hm => exact absurd (Finset.mem_insert_self tid _) hm
  · set s1 : ExecState :=
      { s with backgroundLaunched := insert tid s.backgroundLaunched,
               running := insert tid s.running } with hs1
    by_cases hc5 : MAX_CONCURRENT_TASKS ≤ s1.running.card
    · simp only [executeTask, hvt, hva, not_true, eq_self_iff_true, if_false,
        ite_false, ite_true, if_pos hc5]
      simp
    · rw [executeTask_normal s1 tid aid task agent chunks exc stopFlag cbSet
        cbRaises hvt hva hc5 (by simp [hs1])]
      rw [executeTaskRun_running]
      exact Finset.not_mem_erase tid _

/-- Witness for `c3_duplicate_guard`: the fresh executor, the two valid
UUIDs, an empty stream. -/
theorem c3_duplicate_guard_witness :
    (executeTaskBackground initState uuidA).1 = true ∧
    uuidA ∈ (executeTaskBackground initState uuidA).2.running ∧
    (executeTaskBackground initState uuidA).2.running.card =
      initState.running.card + 1 ∧
    (executeTaskBackground (executeTaskBackground initState uuidA).2 uuidA).1 = false ∧
    (executeTaskBackground (executeTaskBackground initState uuidA).2 uuidA).2 =
      (executeTaskBackground initState uuidA).2 ∧
    uuidA ∉ (executeTask (executeTaskBackground initState uuidA).2 uuidA uuidB
        (some ⟨"Write the docs"⟩) (some ⟨"Writer", "pocketpaw_native"⟩)
        [⟨"message", "hello", "unknown"⟩, ⟨"done", "", "unknown"⟩] none
        (fun _ => false) true false).2.2.running :=
  c3_duplicate_guard initState uuidA uuidB (by decide) (by decide) (by decide)
    (by decide) ⟨"Write the docs"⟩ ⟨"Writer", "pocketpaw_native"⟩
    [⟨"message", "hello", "unknown"⟩, ⟨"done", "", "unknown"⟩] none
    (fun _ => false) true false

/-! ## Claim C4 — cleanup status mapping -/

/-- C4: whenever `execute_task` reaches its cleanup phase, the final
task-status write is `done` iff the final status is `"completed"` and
`blocked` for `"error"` and `"stopped"`, and the final agent-status
write is `idle` with `current_task_id` cleared. -/
theorem c4_cleanup_statuses (s : ExecState) (tid aid : String)
    (task : MCTask) (agent : MCAgent) (chunks : List Chunk) (exc : Option String)
    (stopFlag : Nat → Bool) (cbSet cbRaises : Bool)
    (hvt : isValidUuid tid = true) (hva : isValidUuid aid = true)
    (hcap : ¬ MAX_CONCURRENT_TASKS ≤ s.running.card)
    (hdup : ¬ (tid ∈ s.running ∧ tid ∉ s.backgroundLaunched)) :
    let out := executeTask s tid aid (some task) (some agent) chunks exc
      stopFlag cbSet cbRaises
    out.2.1.taskStatusWrites.getLast? =
      some (tid, finalTaskStatus out.1.status, some aid) ∧
    (finalTaskStatus out.1.status = TaskStatus.done ↔ out.1.status = "completed") ∧
    (out.1.status = "error" ∨ out.1.status = "stopped" →
      finalTaskStatus out.1.status = TaskStatus.blocked) ∧
    out.2.1.agentStatusWrites.getLast? = some (aid, AgentStatus.idle, none) := by
  intro out
  have hout : out = executeTaskRun s tid aid task chunks exc stopFlag cbSet :=
    executeTask_normal s tid aid task agent chunks exc stopFlag cbSet cbRaises
      hvt hva hcap hdup
  rw [hout, executeTaskRun_taskWrites, executeTaskRun_agentWrites,
    executeTaskRun_status]
  refine ⟨rfl, ?_, ?_, rfl⟩
  · constructor
    · intro hdone
      by_contra hne
      simp [finalTaskStatus, hne] at hdone
    · intro hc
      simp [finalTaskStatus, hc]
  · intro hc
    rcases hc with hc | hc <;> rw [hc] <;> decide

/-- Witness for `c4_cleanup_statuses`: fresh executor, valid IDs, a
stream that ends in an `error` chunk. -/
theorem c4_cleanup_statuses_witness :
    let out := executeTask initState uuidA uuidB (some ⟨"Ship it"⟩)
      (some ⟨"Coder", "claude_agent_sdk"⟩)
      [⟨"message", "working", "unknown"⟩, ⟨"error", "boom", "unknown"⟩] none
      (fun _ => false) true false
    out.2.1.taskStatusWrites.getLast? =
      some (uuidA, finalTaskStatus out.1.status, some uuidB) ∧
    (finalTaskStatus out.1.status = TaskStatus.done ↔ out.1.status = "completed") ∧
    (out.1.status = "error" ∨ out.1.status = "stopped" →
      finalTaskStatus out.1.status = TaskStatus.blocked) ∧
    out.2.1.agentStatusWrites.getLast? = some (uuidB, AgentStatus.idle, none) :=
  c4_cleanup_statuses initState uuidA uuidB ⟨"Ship it"⟩
    ⟨"Coder", "claude_agent_sdk"⟩
    [⟨"message", "working", "unknown"⟩, ⟨"error", "boom", "unknown"⟩] none
    (fun _ => false) true false (by decide) (by decide) (by decide) (by decide)

/-! ## Claim C5 — scheduler callback fires for every outcome -/

/-- C5: whenever `execute_task` reaches its cleanup phase with the
callback set, the callback is invoked exactly once with the task id; the
final status is always one of the three terminal outcomes (so this
covers completed, stopped, and error — error chunks and raised
exceptions included); and a callback that raises changes nothing
observable (the `try/except` swallows it). -/
theorem c5_callback_always_fires (s : ExecState) (tid aid : String)
    (task : MCTask) (agent : MCAgent) (chunks : List Chunk) (exc : Option String)
    (stopFlag : Nat → Bool) (cbRaises : Bool)
    (hvt : isValidUuid tid = true) (hva : isValidUuid aid = true)
    (hcap : ¬ MAX_CONCURRENT_TASKS ≤ s.running.card)
    (hdup : ¬ (tid ∈ s.running ∧ tid ∉ s.backgroundLaunched)) :
    (executeTask s tid aid (some task) (some agent) chunks exc stopFlag true
        cbRaises).2.1.callbackCalls = [tid] ∧
    ((executeTask s tid aid (some task) (some agent) chunks exc stopFlag true
        cbRaises).1.status = "completed" ∨
     (executeTask s tid aid (some task) (some agent) chunks exc stopFlag true
        cbRaises).1.status = "stopped" ∨
     (executeTask s tid aid (some task) (some agent) chunks exc stopFlag true
        cbRaises).1.status = "error") ∧
    (∀ cbSet : Bool,
      executeTask s tid aid (some task) (some agent) chunks exc stopFlag cbSet true =
        executeTask s tid aid (some task) (some agent) chunks exc stopFlag cbSet false) := by
  rw [executeTask_normal s tid aid task agent chunks exc stopFlag true cbRaises
    hvt hva hcap hdup]
  refine ⟨?_, ?_, fun _ => rfl⟩
  · rw [executeTaskRun_callbackCalls]
    simp
  · rw [executeTaskRun_status]
    exact drain_status_cases stopFlag exc 0 chunks

/-- Witness for `c5_callback_always_fires`: fresh executor, valid IDs,
a stream that raises an exception after one chunk. -/
theorem c5_callback_always_fires_witness :
    (executeTask initState uuidA uuidB (some ⟨"Research"⟩)
        (some ⟨"Analyst", "open_interpreter"⟩) [⟨"message", "hm", "unknown"⟩]
        (some "ConnectionError: key=sk-li ve123") (fun _ => false) true
        false).2.1.callbackCalls = [uuidA] ∧
    ((executeTask initState uuidA uuidB (some ⟨"Research"⟩)
        (some ⟨"Analyst", "open_interpreter"⟩) [⟨"message", "hm", "unknown"⟩]
        (some "ConnectionError: key=sk-li ve123") (fun _ => false) true
        false).1.status = "completed" ∨
     (executeTask initState uuidA uuidB (some ⟨"Research"⟩)
        (some ⟨"Analyst", "open_interpreter"⟩) [⟨"message", "hm", "unknown"⟩]
        (some "ConnectionError: key=sk-li ve123") (fun _ => false) true
        false).1.status = "stopped" ∨
     (executeTask initState uuidA uuidB (some ⟨"Research"⟩)
        (some ⟨"Analyst", "open_interpreter"⟩) [⟨"message", "hm", "unknown"⟩]
        (some "ConnectionError: key=sk-li ve123") (fun _ => false) true
        false).1.status = "error") ∧
    (∀ cbSet : Bool,
      executeTask initState uuidA uuidB (some ⟨"Research"⟩)
          (some ⟨"Analyst", "open_interpreter"⟩) [⟨"message", "hm", "unknown"⟩]
          (some "ConnectionError: key=sk-li ve123") (fun _ => false) cbSet true =
        executeTask initState uuidA uuidB (some ⟨"Research"⟩)
          (some ⟨"Analyst", "open_interpreter"⟩) [⟨"message", "hm", "unknown"⟩]
          (some "ConnectionError: key=sk-li ve123") (fun _ => false) cbSet false) :=
  c5_callback_always_fires initState uuidA uuidB ⟨"Research"⟩
    ⟨"Analyst", "open_interpreter"⟩ [⟨"message", "hm", "unknown"⟩]
    (some "ConnectionError: key=sk-li ve123") (fun _ => false) false
    (by decide) (by decide) (by decide) (by decide)

/-! ## Claim C10 — early error returns have no observable effects -/

/-- C10: when `execute_task` rejects a call before its streaming phase —
invalid task or agent UUID, capacity reached, task not found, or agent
not found — it performs no store write, logs no activity, saves no
document and broadcasts no bus event, and the result status is
`"error"`. -/
theorem c10_early_errors_pure (s : ExecState) (tid aid : String)
    (task? : Option MCTask) (agent? : Option MCAgent) (chunks : List Chunk)
    (exc : Option String) (stopFlag : Nat → Bool) (cbSet cbRaises : Bool)
    (h : isValidUuid tid = false ∨ isValidUuid aid = false ∨
      MAX_CONCURRENT_TASKS ≤ s.running.card ∨ task? = none ∨ agent? = none) :
    (executeTask s tid aid task? agent? chunks exc stopFlag cbSet cbRaises).2.1 =
      noEffects ∧
    (executeTask s tid aid task? agent? chunks exc stopFlag cbSet
      cbRaises).1.status = "error" := by
  by_cases h1 : isValidUuid tid
  · by_cases h2 : isValidUuid aid
    · by_cases h3 : MAX_CONCURRENT_TASKS ≤ s.running.card
      · constructor <;> simp [executeTask, h1, h2, h3]
      · rcases task? with _ | t
        · constructor <;> simp [executeTask, h1, h2, h3]
        · rcases agent? with _ | a
          · constructor <;> simp [executeTask, h1, h2, h3]
          · exfalso
            rcases h with h | h | h | h | h <;> simp_all
    · constructor <;> simp [executeTask, h1, h2]
  · constructor <;> simp [executeTask, h1]

/-- Witness for `c10_early_errors_pure`: a malformed task id. -/
theorem c10_early_errors_pure_witness :
    (executeTask initState "../../../etc/passwd" uuidB (some ⟨"T"⟩)
        (some ⟨"A", "claude_agent_sdk"⟩) [] none (fun _ => false) true
        false).2.1 = noEffects ∧
    (executeTask initState "../../../etc/passwd" uuidB (some ⟨"T"⟩)
        (some ⟨"A", "claude_agent_sdk"⟩) [] none (fun _ => false) true
        false).1.status = "error" :=
  c10_early_errors_pure initState "../../../etc/passwd" uuidB (some ⟨"T"⟩)
    (some ⟨"A", "claude_agent_sdk"⟩) [] none (fun _ => false) true false
    (Or.inl (by decide))

/-! ## Claim C8 — plan endpoint body -/

/-- C8 (code bug): for every existing project `get_plan` returns a body,
and for an unknown project it raises 404 — but the body's key set is
exactly `project, tasks, progress, prd`: it contains neither
`execution_levels` nor `task_level_map`, although the repository's own
test suite (`tests/test_execution_levels.py`) asserts both keys are
present. -/
theorem c8_plan_missing_levels :
    (∀ (p : Project) (tasks : List String) (progress : String)
        (prdDoc? : Option Document),
      ∃ body : PlanBody, getPlan (some p) tasks progress prdDoc? = Except.ok body) ∧
    planBodyKeys.contains "project" = true ∧
    planBodyKeys.contains "tasks" = true ∧
    planBodyKeys.contains "progress" = true ∧
    planBodyKeys.contains "prd" = true ∧
    planBodyKeys.contains "execution_levels" = false ∧
    planBodyKeys.contains "task_level_map" = false ∧
    (∀ (tasks : List String) (progress : String) (prdDoc? : Option Document),
      getPlan none tasks progress prdDoc? = Except.error 404) := by
  refine ⟨?_, by decide, by decide, by decide, by decide, by decide, by decide, ?_⟩
  · intro p tasks progress prdDoc?
    exact ⟨_, rfl⟩
  · intro tasks progress prdDoc?
    rfl

/-! ## Claim C9 — WhatsApp outbound stream buffering -/

/-- C9: a stream chunk is appended to the per-chat buffer and sends
nothing; a stream end removes the buffer entry for that chat and flushes
it as a single message exactly when the accumulated text is
non-whitespace, so at most one message is sent per stream and the buffer
entry is absent afterwards. -/
theorem c9_whatsapp_stream_buffering (convert : String → String) (s : WAState)
    (chat content : String) (endFlag : Bool) :
    (waSend true convert s ⟨chat, content, true, endFlag⟩).sent = s.sent ∧
    dictGet (waSend true convert s ⟨chat, content, true, endFlag⟩).buffers chat =
      some (((dictGet s.buffers chat).getD "") ++ content) ∧
    dictGet (waSend true convert s ⟨chat, content, false, true⟩).buffers chat =
      none ∧
    (waSend true convert s ⟨chat, content, false, true⟩).sent =
      s.sent ++
        (if pyStrip ((dictGet s.buffers chat).getD "").data = [] then []
         else [(chat, convert ((dictGet s.buffers chat).getD ""))]) ∧
    (waSend true convert s ⟨chat, content, false, true⟩).sent.length ≤
      s.sent.length + 1 := by
  refine ⟨?_, ?_, ?_, ?_, ?_⟩
  · simp [waSend]
  · simp [waSend, dictGet_dictSet]
  · by_cases hstrip : pyStrip ((dictGet s.buffers chat).getD "").data = [] <;>
      simp [waSend, hstrip, dictGet_dictPop]
  · by_cases hstrip : pyStrip ((dictGet s.buffers chat).getD "").data = [] <;>
      simp [waSend, hstrip]
  · by_cases hstrip : pyStrip ((dictGet s.buffers chat).getD "").data = [] <;>
      simp [waSend, hstrip]

end PocketPaw
